import Mathlib

/-!
Verification development for the ai-concierge backend.

The definitions below are a shallow embedding of the core logic of the
repository: the Airtable-to-ChromaDB sync engine
(backend/app/services/sync_service.py), the chat orchestration and
RAG retrieval pipeline (backend/app/services/chat_service.py), and the
record-to-card mapper (backend/app/utils/mapping.py).

External collaborators (Airtable, ChromaDB, the OpenAI chat/whisper
backends, the sentence-transformer embedding model) are modelled as
oracle fields of an environment structure; the embedded functions are
pure and replay exactly the branching of the Python source.  Python
dictionaries are modelled as association lists with first-match lookup,
and Python string formatting (str() and repr() of the values that
actually occur) is modelled by explicit functions.
-/

namespace Concierge

/-- Field values occurring in Airtable records: strings, or lists of
strings (as used by the Type field).  Python dict values in this code
base are only ever these two shapes. -/
inductive FieldVal where
  | s (v : String)
  | l (vs : List String)
deriving DecidableEq

/-- Airtable record fields: a Python dict modelled as an association
list with first-match lookup. -/
abbrev Fields := List (String × FieldVal)

/-- Lookup in a Python dict (association list, first match wins). -/
def dictGet (d : Fields) (k : String) : Option FieldVal :=
  (d.find? (fun p => p.1 == k)).map (fun p => p.2)

/-- Model of CPython repr of a string that contains no quote,
backslash, or non-printable characters (the only strings these claims
evaluate it on): a single-quoted copy of the string. -/
def pyReprStr (v : String) : String := "\x27" ++ v ++ "\x27"

/-- Model of Python str() applied to a field value: a string renders as
itself, a list renders as its repr (elements repr-quoted). -/
def pyStr : FieldVal → String
  | .s v => v
  | .l vs => "[" ++ String.intercalate ", " (vs.map pyReprStr) ++ "]"

/-- Model of Python repr() applied to a field value. -/
def pyReprVal : FieldVal → String
  | .s v => pyReprStr v
  | .l vs => "[" ++ String.intercalate ", " (vs.map pyReprStr) ++ "]"

/-- Model of Python str.startswith. -/
def pyStartsWith (s p : String) : Bool := p.data.isPrefixOf s.data

/-! Sync engine (backend/app/services/sync_service.py). -/

/-- Entry of the ChromaDB collection: id, embedding vector, metadata
dict and the document text that was embedded. -/
structure ChromaEntry where
  id : String
  embedding : List Int
  metadata : List (String × String)
  document : String
deriving DecidableEq

/-- Environment observed by one full-sync run: the Airtable id
enumeration, the per-id record fetch, and the (deterministic)
embedding model. -/
structure SyncEnv where
  airtableIds : List String
  getRecord : String → Option Fields
  embed : String → List Int

/-- Model of collection.delete(ids=...): drop every entry whose id is
in the given list. -/
def chromaDelete (st : List ChromaEntry) (ids : List String) : List ChromaEntry :=
  st.filter (fun e => !(decide (e.id ∈ ids)))

/-- Model of upserting one entry: replace the entry with the same id if
present, otherwise append. -/
def chromaUpsertOne (st : List ChromaEntry) (e : ChromaEntry) : List ChromaEntry :=
  if st.any (fun x => x.id == e.id) then
    st.map (fun x => if x.id == e.id then e else x)
  else st ++ [e]

/-- Model of a batch collection.upsert over a list of entries. -/
def chromaUpsert (st : List ChromaEntry) (es : List ChromaEntry) : List ChromaEntry :=
  es.foldl chromaUpsertOne st

/-- Embedding of SyncService._prepare_chroma_metadata: the fixed
seven-key projection, every value str()-coerced, absent fields
defaulting to the empty string.  The trailing isinstance loop of the
source is a no-op after str() and is not repeated here. -/
def prepareChromaMetadata (f : Fields) : List (String × String) :=
  [("experience_name", pyStr ((dictGet f "Experience Name").getD (.s ""))),
   ("description", pyStr ((dictGet f "Description").getD (.s ""))),
   ("duration", pyStr ((dictGet f "Duration").getD (.s ""))),
   ("price", pyStr ((dictGet f "Price").getD (.s ""))),
   ("type", pyStr ((dictGet f "Type").getD (.s ""))),
   ("url", pyStr ((dictGet f "URL").getD (.s ""))),
   ("vendor", pyStr ((dictGet f "Vendor").getD (.s "")))]

/-- Text that run_full_airtable_chroma_sync embeds for a record:
the f-string rendering of name and description joined by " - ". -/
def textToEmbed (f : Fields) : String :=
  pyStr ((dictGet f "Experience Name").getD (.s "")) ++ " - "
    ++ pyStr ((dictGet f "Description").getD (.s ""))

/-- One iteration of the upsert loop of run_full_airtable_chroma_sync
for a given record id: none when the loop skips the id (fetch miss,
falsy empty fields dict, or empty name/description text), otherwise the
entry collected into the upsert batch. -/
def upsertEntry (env : SyncEnv) (rid : String) : Option ChromaEntry :=
  match env.getRecord rid with
  | none => none
  | some f =>
    if f.isEmpty then none
    else
      let text := textToEmbed f
      if text = "" ∨ text = " - " then none
      else some ⟨rid, env.embed text, prepareChromaMetadata f, text⟩

/-- Step 3 of run_full_airtable_chroma_sync: ids present in the Chroma
collection but absent from the Airtable enumeration.  Both id
collections are Python sets, modelled with dedup. -/
def syncIdsToDelete (env : SyncEnv) (st : List ChromaEntry) : List String :=
  ((st.map ChromaEntry.id).dedup).filter (fun i => !(decide (i ∈ env.airtableIds.dedup)))

/-- Collection state after the deletion step: the delete call is made
only when ids_to_delete is non-empty (the source guards it), though the
guard does not change the result. -/
def syncAfterDelete (env : SyncEnv) (st : List ChromaEntry) : List ChromaEntry :=
  if (syncIdsToDelete env st).isEmpty then st else chromaDelete st (syncIdsToDelete env st)

/-- Steps 4 of run_full_airtable_chroma_sync: the upsert batch collected
by iterating over the Airtable id set. -/
def syncBatch (env : SyncEnv) : List ChromaEntry :=
  env.airtableIds.dedup.filterMap (upsertEntry env)

/-- Embedding of SyncService.run_full_airtable_chroma_sync on the
happy path (no store-level exceptions): set-difference deletion of ids
absent from the Airtable enumeration, then a batch upsert of every
Airtable id whose record fetch and text preparation succeed (the batch
call is guarded on a non-empty batch, as in the source). -/
def fullSync (env : SyncEnv) (st : List ChromaEntry) : List ChromaEntry :=
  if (syncBatch env).isEmpty then syncAfterDelete env st
  else chromaUpsert (syncAfterDelete env st) (syncBatch env)

/-- Helper predicate: e is the unique entry carrying its id in st. -/
def entryUnique (e : ChromaEntry) (st : List ChromaEntry) : Prop :=
  ∀ x ∈ st, x.id = e.id → x = e

/-- Sync environment in which the Airtable enumeration observed by the
run is empty. -/
def emptySorEnv : SyncEnv :=
  ⟨[], fun _ => none, fun _ => []⟩

/-- Sync environment for the orphan-pruning scenario: SoR ids B, C, D,
every record fetchable with non-empty name and description. -/
def orphanEnv : SyncEnv :=
  ⟨["recB", "recC", "recD"],
   fun rid => some [("Experience Name", .s ("Name " ++ rid)), ("Description", .s "A fine activity")],
   fun _ => [2]⟩

/-- Index state holding ids A, B, C for the orphan-pruning scenario. -/
def orphanIndex : List ChromaEntry :=
  [⟨"recA", [1], [], "a"⟩, ⟨"recB", [1], [], "b"⟩, ⟨"recC", [1], [], "c"⟩]

/-- Concrete non-empty index state used to exhibit the empty-SoR wipe. -/
def demoIndex : List ChromaEntry :=
  [⟨"recA", [1], [("experience_name", "Canal Cruise")], "Canal Cruise - A boat tour"⟩]

/-! Chat service (backend/app/services/chat_service.py). -/

/-- Chat message with a role and content, as sent to the completion
backend and stored in the conversation history. -/
structure Msg where
  role : String
  content : String
deriving DecidableEq

/-- Outcome of one call to the OpenAI backend (chat completion or
transcription): a successful payload, or one of the expected failure
categories distinguished by the except clauses of the source. -/
inductive ApiOutcome where
  | success (content : String)
  | connErr
  | rateLimit
  | authErr
  | apiStatus (code : Nat)
  | unexpected

/-- Ghost trace of the external calls an orchestration step performs:
a vector-index query, a chat-completion backend call with the message
sequence it sends, or a transcription backend call. -/
inductive Effect where
  | vectorQuery (query : String)
  | backendCompletion (messages : List Msg)
  | backendTranscription
deriving DecidableEq

/-- Record returned by RAG retrieval: the Airtable record id together
with its fields, as merged by record_with_id = dict(id=..., **fields). -/
structure RecordWithId where
  id : String
  fields : Fields
deriving DecidableEq

/-- Environment observed by the chat service: whether the OpenAI client
initialized, whether the RAG components (embedding model, Chroma
collection, Airtable service) initialized, the ids the vector query
returns for a message (none models an exception inside the retrieval
try block), the Airtable record fetch, and the backend behaviors. -/
structure ChatEnv where
  openaiClientOk : Bool
  ragOk : Bool
  queryIds : String → Option (List String)
  getRecord : String → Option Fields
  completionOutcome : List Msg → ApiOutcome
  transcribeOutcome : ApiOutcome

/-- Conversation history store: per-session turn lists, a missing
session being the empty list (dict.get(session_id, [])). -/
def Store := String → List Msg

/-- Empty history store. -/
def emptyStore : Store := fun _ => []

/-- Embedding of ChatService._update_conversation_history: append the
user turn then the assistant turn to the addressed session only. -/
def updateHistory (store : Store) (sid u a : String) : Store :=
  fun s => if s = sid then store sid ++ [⟨"user", u⟩, ⟨"assistant", a⟩] else store s

/-- Rendering of an optional field value inside an f-string with a
string default, as in airtable_fields.get(key, defaultText). -/
def getFieldStr (f : Fields) (k : String) (dflt : String) : String :=
  match dictGet f k with
  | none => dflt
  | some v => pyStr v

/-- Context line built for one retrieved record, mirroring the f-string
of _retrieve_rag_context (the index i is the position in the retrieved
id list, including skipped ids). -/
def contextLine (i : Nat) (rid : String) (f : Fields) : String :=
  "[Result " ++ toString (i + 1) ++ " (ID: " ++ rid ++ "): Name: "
    ++ getFieldStr f "Experience Name" "N/A" ++ ", Description: "
    ++ getFieldStr f "Description" "N/A" ++ ", Price: "
    ++ getFieldStr f "Price" "N/A" ++ ", Type: "
    ++ getFieldStr f "Type" "N/A" ++ "]"

/-- Embedding of ChatService._retrieve_rag_context: embed the query,
query Chroma for ids, fetch each id from Airtable (skipping misses and
falsy empty field dicts), and assemble the context string and record
list, with the sentinel and error strings of the source. -/
def retrieveRag (env : ChatEnv) (message : String) :
    (String × List RecordWithId) × List Effect :=
  if ¬ env.ragOk then (("Error: Could not perform context retrieval.", []), [])
  else
    match env.queryIds message with
    | none => (("Error: Failed to retrieve context information.", []), [.vectorQuery message])
    | some ids =>
      if ids.isEmpty then
        (("No specific context found in the knowledge base.", []), [.vectorQuery message])
      else
        let fetched := ids.enum.filterMap (fun p =>
          match env.getRecord p.2 with
          | some f => if f.isEmpty then none else some (p.1, p.2, f)
          | none => none)
        let records := fetched.map (fun t => RecordWithId.mk t.2.1 t.2.2)
        let parts := fetched.map (fun t => contextLine t.1 t.2.1 t.2.2)
        if parts.isEmpty then (("Context details could not be retrieved.", []), [.vectorQuery message])
        else
          (("Context from knowledge base:\n" ++ String.intercalate "\n" parts, records),
           [.vectorQuery message])

/-- System prompt of _call_openai_api. -/
def systemPromptContent : String :=
  "You are a helpful and friendly AI Concierge for a luxury hotel. "
    ++ "Your goal is to assist guests in planning their stay by recommending relevant hotel activities and local experiences. "
    ++ "Use only the information provided in the \x27Context\x27 section below to answer questions about activities and experiences. "
    ++ "Do not make up activities, prices, durations, or other details not present in the context. "
    ++ "If the context doesn\x27t contain relevant information to answer the user\x27s query about activities/experiences, politely state that you don\x27t have that specific information available. "
    ++ "Keep your responses concise and helpful."

/-- Fixed system message opening every completion request. -/
def systemMsg : Msg := ⟨"system", systemPromptContent⟩

/-- Content of the final user turn: the RAG context prepended to the
user question. -/
def contextEnhanced (context message : String) : String :=
  "Context:\n" ++ context ++ "\n\nUser Question: " ++ message

/-- Message sequence _call_openai_api sends: the system prompt, the
prior history, then the context-enhanced user turn. -/
def buildMessages (history : List Msg) (context message : String) : List Msg :=
  systemMsg :: (history ++ [⟨"user", contextEnhanced context message⟩])

/-- Model of Python str.strip(): drop whitespace from both ends. -/
def pyStrip (s : String) : String :=
  String.mk (((s.data.dropWhile Char.isWhitespace).reverse.dropWhile Char.isWhitespace).reverse)

/-- Reply mapped from a completion-backend outcome, mirroring the
try/except of _call_openai_api: the stripped successful content (or the
please-rephrase fallback when empty), or one sentinel error string per
expected failure category. -/
def completionReply : ApiOutcome → String
  | .success content =>
    let r := pyStrip content
    if r = "" then "I received an empty response, could you please rephrase?" else r
  | .connErr => "Error: Could not connect to the AI service."
  | .rateLimit => "Error: The AI service is currently busy. Please try again later."
  | .authErr => "Error: AI service authentication failed."
  | .apiStatus code =>
    "Error: The AI service returned an error (Status: " ++ (toString code ++ ").")
  | .unexpected => "Error: An unexpected error occurred while contacting the AI service."

/-- Embedding of ChatService._call_openai_api: the missing-client
sentinel, otherwise build the message sequence, call the backend (the
ghost effect records the messages sent) and map the outcome. -/
def callOpenAI (env : ChatEnv) (message : String) (history : List Msg) (context : String) :
    String × List Effect :=
  if ¬ env.openaiClientOk then ("Error: AI service connection failed.", [])
  else
    let messages := buildMessages history context message
    (completionReply (env.completionOutcome messages), [.backendCompletion messages])

/-- Reply mapped from a transcription-backend outcome, mirroring the
try/except of ChatService.transcribe_audio. -/
def transcriptionReply : ApiOutcome → String
  | .success t => t
  | .connErr => "Error: Could not connect to the AI service for transcription."
  | .rateLimit => "Error: The AI service is currently busy. Please try again later."
  | .authErr => "Error: AI service authentication failed."
  | .apiStatus code =>
    "Error: The AI service returned an error during transcription (Status: " ++ (toString code ++ ").")
  | .unexpected => "Error: An unexpected error occurred during audio transcription."

/-- Embedding of ChatService.transcribe_audio: the missing-client
sentinel, otherwise call the backend and map the outcome. -/
def transcribeAudio (env : ChatEnv) : String × List Effect :=
  if ¬ env.openaiClientOk then ("Error: AI service connection failed.", [])
  else (transcriptionReply env.transcribeOutcome, [.backendTranscription])

/-! Mapper (backend/app/utils/mapping.py) and models. -/

/-- Card shape of ExperienceCardData (models.py): id and name required,
every other field optional. -/
structure ExperienceCardData where
  id : String
  name : String
  description : Option String
  image_url : Option String
  price : Option String
  duration : Option String
  type : Option String
  url : Option String
deriving DecidableEq

/-- Model of Python subscript value[0]: the first character of a
string, the first element of a list, and none for the IndexError an
empty string or empty list raises. -/
def pyIndex0 : FieldVal → Option String
  | .s v => v.data.head?.map (fun c => String.mk [c])
  | .l vs => vs.head?

/-- Pydantic validation of an optional str-typed field: absent maps to
None, a string passes through, a list raises a validation error
(modelled as the outer none). -/
def expectOptStr : Option FieldVal → Option (Option String)
  | none => some none
  | some (.s v) => some (some v)
  | some (.l _) => none

/-- Embedding of map_airtable_to_card_data: reject a falsy record or a
record without an id key, then build the card inside a try block where
any indexing or validation failure returns None.  The source evaluates
the Type subscript get(Type, [])[0] while building the constructor
arguments; every failure collapses to None, so the checks are nested in
source argument order. -/
def map_airtable_to_card_data (rec : Fields) : Option ExperienceCardData :=
  if rec.isEmpty || (dictGet rec "id").isNone then none
  else
    match dictGet rec "id" with
    | some (.s idv) =>
      match (dictGet rec "Experience Name").getD (.s "N/A") with
      | .s namev =>
        match expectOptStr (dictGet rec "Description") with
        | some desc =>
          match expectOptStr (dictGet rec "Image URL") with
          | some img =>
            match pyIndex0 ((dictGet rec "Type").getD (.l [])) with
            | some ty =>
              match expectOptStr (dictGet rec "URL") with
              | some url =>
                some ⟨idv, namev, desc, img,
                  some (pyStr ((dictGet rec "Price").getD (.s ""))),
                  some (pyStr ((dictGet rec "Duration").getD (.s ""))),
                  some ty, url⟩
              | none => none
            | none => none
          | none => none
        | none => none
      | .l _ => none
    | some (.l _) => none
    | none => none

/-- Dict built by _retrieve_rag_context for a retrieved record:
record_with_id = dict(id=record_id, **fields), with a field named id
overriding the record id as in a Python dict merge. -/
def recordDict (r : RecordWithId) : Fields :=
  r.fields ++ (if (dictGet r.fields "id").isSome then [] else [("id", FieldVal.s r.id)])

/-- Model of Python repr of a retrieved-record dict whose fields hold
no id key and no quote or backslash characters: the id entry first,
then the fields in order. -/
def pyReprRecord (r : RecordWithId) : String :=
  "\x7b\x27id\x27: " ++ pyReprStr r.id
    ++ String.join (r.fields.map (fun p => ", " ++ pyReprStr p.1 ++ ": " ++ pyReprVal p.2))
    ++ "\x7d"

/-- Model of Python str() of the (context_text, records) tuple that
process_audio_message passes as the context argument: CPython renders a
tuple via the repr of its elements. -/
def pyReprRetrieval (p : String × List RecordWithId) : String :=
  "(" ++ pyReprStr p.1 ++ ", [" ++ String.intercalate ", " (p.2.map pyReprRecord) ++ "])"

/-! Chat orchestration. -/

/-- Embedding of ChatService.process_chat_message on the path with no
unexpected orchestration exception: retrieval, the completion call
unless retrieval produced an error sentinel, card mapping when records
were retrieved and the reply is not an error, and the history write
only for non-error replies.  The result bundles the reply, the
suggestion cards, the updated store and the ghost effect trace. -/
def processChatMessage (env : ChatEnv) (store : Store) (sid userMessage : String) :
    (String × List ExperienceCardData) × Store × List Effect :=
  let history := store sid
  let retr := retrieveRag env userMessage
  let contextStr := retr.1.1
  let records := retr.1.2
  let comp := callOpenAI env userMessage history contextStr
  let reply := if pyStartsWith contextStr "Error:" then contextStr else comp.1
  let ceff := if pyStartsWith contextStr "Error:" then ([] : List Effect) else comp.2
  let suggestions :=
    if pyStartsWith contextStr "Error:" then []
    else if (!records.isEmpty) && (!pyStartsWith reply "Error:") then
      records.filterMap (fun r => map_airtable_to_card_data (recordDict r))
    else []
  let store1 :=
    if pyStartsWith reply "Error:" then store else updateHistory store sid userMessage reply
  ((reply, suggestions), store1, retr.2 ++ ceff)

/-- Embedding of ChatService.process_audio_message: transcribe, and on
an error-sentinel transcription short-circuit with an empty transcribed
text and the audio-processing error reply; otherwise run retrieval and
the completion call — passing the whole retrieval pair as the context
argument, which the f-string of _call_openai_api renders as the str()
of the tuple — then the conditional history write. -/
def processAudioMessage (env : ChatEnv) (store : Store) (sid : String) :
    (String × String) × Store × List Effect :=
  let tr := transcribeAudio env
  let t := tr.1
  if pyStartsWith t "Error:" then
    (("", "Audio Processing Error: " ++ t), store, tr.2)
  else
    let history := store sid
    let retr := retrieveRag env t
    let comp := callOpenAI env t history (pyReprRetrieval retr.1)
    let reply := comp.1
    let store1 := if pyStartsWith reply "Error:" then store else updateHistory store sid t reply
    ((t, reply), store1, tr.2 ++ retr.2 ++ comp.2)

/-- Alternation invariant on a stored history: a sequence of
user/assistant turn pairs. -/
def wfHistory : List Msg → Bool
  | [] => true
  | u :: a :: rest => u.role == "user" && a.role == "assistant" && wfHistory rest
  | _ => false

/-! Concrete environments exercising the chat orchestration. -/

/-- Chat environment whose vector query finds no ids, with a healthy
client, a transcription returning the text hi, and completions
answering ok. -/
def stubEnv : ChatEnv :=
  ⟨true, true, fun _ => some [], fun _ => none, fun _ => .success "ok", .success "hi"⟩

/-- Chat environment whose completion replies encode the turn count, so
the first completion of a session answers R1 and the second answers R2. -/
def histEnv : ChatEnv :=
  ⟨true, true, fun _ => some [], fun _ => none,
   fun ms => .success ("R" ++ toString (ms.length / 2)), .success "hi"⟩

/-- Chat environment whose backends fail with connectivity errors. -/
def failEnv : ChatEnv :=
  ⟨true, true, fun _ => some [], fun _ => none, fun _ => .connErr, .connErr⟩

/-- History store after sending hello then world on session s1 of the
turn-counting environment, starting from an empty store. -/
def historyDemoStore : Store :=
  (processChatMessage histEnv
    ((processChatMessage histEnv emptyStore "s1" "hello").2.1) "s1" "world").2.1

/-- Record with an id, name, description, price, duration and url but
no Type field, exercising the mapper. -/
def typelessRecord : Fields :=
  [("id", .s "rec1"), ("Experience Name", .s "Yoga"), ("Description", .s "Morning yoga"),
   ("Price", .s "25"), ("Duration", .s "60 min"), ("URL", .s "https://example.com/yoga")]

end Concierge

namespace Concierge

/-- C1: the spec requires that a full-sync run observing an empty SoR
enumeration must not delete all existing index entries.  The source
falls through its commented-out guard, computes ids_to_delete as the
whole index id set and deletes it: a non-empty index is wiped to empty.
This theorem evaluates the embedded sync at such an input. -/
theorem fullSync_empty_sor_wipes_nonempty_index :
    emptySorEnv.airtableIds = [] ∧ demoIndex ≠ [] ∧ fullSync emptySorEnv demoIndex = [] := by
  refine ⟨rfl, by decide, by decide⟩

/-- Ids of the collection after a single-entry upsert: the previous ids
plus the id of the upserted entry. -/
theorem mem_id_chromaUpsertOne (st : List ChromaEntry) (e : ChromaEntry) (x : String) :
    x ∈ (chromaUpsertOne st e).map ChromaEntry.id
      ↔ x ∈ st.map ChromaEntry.id ∨ x = e.id := by
  unfold chromaUpsertOne
  split
  · rename_i h
    rw [List.any_eq_true] at h
    obtain ⟨y, hy, hbeq⟩ := h
    have hyid : y.id = e.id := by simpa using hbeq
    have hmap : (st.map fun x => if x.id == e.id then e else x).map ChromaEntry.id
        = st.map ChromaEntry.id := by
      rw [List.map_map]
      apply List.map_congr_left
      intro a _
      by_cases hcase : a.id = e.id
      · simp [Function.comp, hcase]
      · simp [Function.comp, hcase]
    rw [hmap]
    constructor
    · exact Or.inl
    · rintro (hx | rfl)
      · exact hx
      · exact List.mem_map.mpr ⟨y, hy, hyid⟩
  · simp

/-- Ids of the collection after a batch upsert: the previous ids plus
the ids of the batch. -/
theorem mem_id_chromaUpsert (st : List ChromaEntry) (es : List ChromaEntry) (x : String) :
    x ∈ (chromaUpsert st es).map ChromaEntry.id
      ↔ x ∈ st.map ChromaEntry.id ∨ x ∈ es.map ChromaEntry.id := by
  induction es generalizing st with
  | nil => simp [chromaUpsert]
  | cons e rest ih =>
    have hstep : chromaUpsert st (e :: rest) = chromaUpsert (chromaUpsertOne st e) rest := rfl
    rw [hstep, ih, mem_id_chromaUpsertOne]
    simp only [List.map_cons, List.mem_cons]
    tauto

/-- Ids surviving a delete call: previous ids outside the deleted set. -/
theorem mem_id_chromaDelete (st : List ChromaEntry) (ids : List String) (x : String) :
    x ∈ (chromaDelete st ids).map ChromaEntry.id
      ↔ x ∈ st.map ChromaEntry.id ∧ x ∉ ids := by
  unfold chromaDelete
  simp only [List.mem_map, List.mem_filter, Bool.not_eq_eq_eq_not, Bool.not_true,
    decide_eq_false_iff_not]
  constructor
  · rintro ⟨e, ⟨he, hnot⟩, rfl⟩
    exact ⟨⟨e, he, rfl⟩, hnot⟩
  · rintro ⟨⟨e, he, rfl⟩, hnot⟩
    exact ⟨e, ⟨he, hnot⟩, rfl⟩

/-- Identifier carried by a batch entry produced for a record id. -/
theorem upsertEntry_id (env : SyncEnv) (rid : String) (e : ChromaEntry)
    (h : upsertEntry env rid = some e) : e.id = rid := by
  unfold upsertEntry at h
  split at h
  · cases h
  · split at h
    · cases h
    · dsimp only at h
      split at h
      · cases h
      · cases h; rfl

/-- Every id of the collected batch comes from the iterated id list. -/
theorem batch_ids_subset (env : SyncEnv) (l : List String) (x : String)
    (hx : x ∈ (l.filterMap (upsertEntry env)).map ChromaEntry.id) : x ∈ l := by
  rw [List.mem_map] at hx
  obtain ⟨e, he, rfl⟩ := hx
  rw [List.mem_filterMap] at he
  obtain ⟨rid, hrid, hsome⟩ := he
  rw [upsertEntry_id env rid e hsome]
  exact hrid

/-- When every iterated id yields a batch entry, the batch ids are
exactly the iterated ids. -/
theorem batch_ids_mem (env : SyncEnv) (l : List String)
    (hall : ∀ rid ∈ l, (upsertEntry env rid).isSome = true) (x : String) :
    x ∈ (l.filterMap (upsertEntry env)).map ChromaEntry.id ↔ x ∈ l := by
  constructor
  · exact batch_ids_subset env l x
  · intro hx
    obtain ⟨e, he⟩ := Option.isSome_iff_exists.mp (hall x hx)
    refine List.mem_map.mpr ⟨e, List.mem_filterMap.mpr ⟨x, hx, he⟩, upsertEntry_id env x e he⟩

/-- Batch entries collected from a duplicate-free id list have
duplicate-free ids. -/
theorem batch_ids_nodup (env : SyncEnv) (l : List String) (h : l.Nodup) :
    ((l.filterMap (upsertEntry env)).map ChromaEntry.id).Nodup := by
  induction l with
  | nil => simp
  | cons rid rest ih =>
    rw [List.filterMap_cons]
    cases hu : upsertEntry env rid with
    | none => exact ih (List.Nodup.of_cons h)
    | some e =>
      rw [List.map_cons]
      refine List.nodup_cons.mpr ⟨?_, ih (List.Nodup.of_cons h)⟩
      rw [upsertEntry_id env rid e hu]
      intro hmem
      exact (List.nodup_cons.mp h).1 (batch_ids_subset env rest rid hmem)

/-- Every id surviving the deletion step belongs to the Airtable id
set (either nothing was deleted because all index ids were already in
the set, or the set-difference deletion removed the rest). -/
theorem syncAfterDelete_ids_subset (env : SyncEnv) (st : List ChromaEntry) (x : String)
    (hx : x ∈ (syncAfterDelete env st).map ChromaEntry.id) : x ∈ env.airtableIds.dedup := by
  unfold syncAfterDelete at hx
  split at hx
  · rename_i hempty
    rw [List.isEmpty_iff] at hempty
    unfold syncIdsToDelete at hempty
    rw [List.filter_eq_nil_iff] at hempty
    have hx2 : x ∈ (st.map ChromaEntry.id).dedup := List.mem_dedup.mpr hx
    have := hempty x hx2
    simpa using this
  · rw [mem_id_chromaDelete] at hx
    obtain ⟨hmem, hnot⟩ := hx
    by_contra hno
    apply hnot
    unfold syncIdsToDelete
    rw [List.mem_filter]
    exact ⟨List.mem_dedup.mpr hmem, by simpa using hno⟩

/-- C2: a full-sync run with a non-empty SoR enumeration in which every
SoR record is fetchable with non-empty name and description leaves the
index id set exactly equal to the SoR id set: orphans are deleted and
new ids are added. -/
theorem fullSync_exact_id_set (env : SyncEnv) (st : List ChromaEntry)
    (hne : env.airtableIds ≠ [])
    (hfetch : ∀ rid ∈ env.airtableIds, (upsertEntry env rid).isSome = true) :
    ∀ x, x ∈ (fullSync env st).map ChromaEntry.id ↔ x ∈ env.airtableIds := by
  intro x
  have hall : ∀ rid ∈ env.airtableIds.dedup, (upsertEntry env rid).isSome = true :=
    fun rid hrid => hfetch rid (List.mem_dedup.mp hrid)
  have hdne : env.airtableIds.dedup ≠ [] := by
    intro hnil
    exact hne ((List.dedup_eq_nil _).mp hnil)
  have hbatch : ¬ (syncBatch env).isEmpty = true := by
    intro hb
    rw [List.isEmpty_iff] at hb
    obtain ⟨rid, hrid⟩ := List.exists_mem_of_ne_nil _ hdne
    have hmem : rid ∈ (syncBatch env).map ChromaEntry.id :=
      (batch_ids_mem env env.airtableIds.dedup hall rid).mpr hrid
    rw [hb] at hmem
    simp at hmem
  unfold fullSync
  rw [if_neg hbatch, mem_id_chromaUpsert]
  constructor
  · rintro (h1 | h2)
    · exact List.mem_dedup.mp (syncAfterDelete_ids_subset env st x h1)
    · exact List.mem_dedup.mp (batch_ids_subset env env.airtableIds.dedup x h2)
  · intro hx
    exact Or.inr ((batch_ids_mem env env.airtableIds.dedup hall x).mpr (List.mem_dedup.mpr hx))

/-- Witness for C2 at the index ids A, B, C against SoR ids B, C, D:
the hypotheses hold and the theorem applies at the orphan id A and the
fresh id D. -/
theorem fullSync_exact_id_set_witness :
    orphanEnv.airtableIds ≠ [] ∧
    ("recA" ∈ (fullSync orphanEnv orphanIndex).map ChromaEntry.id ↔ "recA" ∈ orphanEnv.airtableIds) ∧
    ("recD" ∈ (fullSync orphanEnv orphanIndex).map ChromaEntry.id ↔ "recD" ∈ orphanEnv.airtableIds) :=
  ⟨by decide,
   fullSync_exact_id_set orphanEnv orphanIndex (by decide) (by decide) "recA",
   fullSync_exact_id_set orphanEnv orphanIndex (by decide) (by decide) "recD"⟩

/-- Upserting an entry leaves it as the unique carrier of its id. -/
theorem chromaUpsertOne_unique (st : List ChromaEntry) (e : ChromaEntry) :
    entryUnique e (chromaUpsertOne st e) := by
  intro x hx hid
  unfold chromaUpsertOne at hx
  split at hx
  · rw [List.mem_map] at hx
    obtain ⟨y, _, rfl⟩ := hx
    by_cases hcase : y.id = e.id
    · simp [hcase]
    · rw [if_neg (by simpa using hcase)] at hid ⊢
      exact absurd hid hcase
  · rename_i hany
    rw [List.mem_append] at hx
    rcases hx with hx | hx
    · exfalso
      rw [List.any_eq_true] at hany
      exact hany ⟨x, hx, by simpa using hid⟩
    · simpa using hx

/-- Upserting an entry with a different id preserves unique carriage. -/
theorem chromaUpsertOne_preserves_unique (st : List ChromaEntry) (e e' : ChromaEntry)
    (hne : e'.id ≠ e.id) (h : entryUnique e st) : entryUnique e (chromaUpsertOne st e') := by
  intro x hx hid
  unfold chromaUpsertOne at hx
  split at hx
  · rw [List.mem_map] at hx
    obtain ⟨y, hy, rfl⟩ := hx
    by_cases hcase : y.id = e'.id
    · rw [if_pos (by simpa using hcase)] at hid ⊢
      exact absurd hid hne
    · rw [if_neg (by simpa using hcase)] at hid ⊢
      exact h y hy hid
  · rw [List.mem_append] at hx
    rcases hx with hx | hx
    · exact h x hx hid
    · rw [List.mem_singleton] at hx
      subst hx
      exact absurd hid hne

/-- Batch-upserting entries with other ids preserves unique carriage. -/
theorem chromaUpsert_preserves_unique (es : List ChromaEntry) :
    ∀ (st : List ChromaEntry) (e : ChromaEntry),
      (∀ e' ∈ es, e'.id ≠ e.id) → entryUnique e st → entryUnique e (chromaUpsert st es) := by
  induction es with
  | nil => intro st e _ h; exact h
  | cons e' rest ih =>
    intro st e hne h
    show entryUnique e (chromaUpsert (chromaUpsertOne st e') rest)
    exact ih (chromaUpsertOne st e') e (fun x hx => hne x (List.mem_cons_of_mem _ hx))
      (chromaUpsertOne_preserves_unique st e e' (hne e' (List.mem_cons_self _ _)) h)

/-- After a batch upsert with duplicate-free ids, every batch entry is
the unique carrier of its id in the result. -/
theorem chromaUpsert_unique (es : List ChromaEntry) :
    ∀ (st : List ChromaEntry), (es.map ChromaEntry.id).Nodup →
      ∀ e ∈ es, entryUnique e (chromaUpsert st es) := by
  induction es with
  | nil => intro st _ e he; cases he
  | cons e' rest ih =>
    intro st hnd e he
    rw [List.map_cons, List.nodup_cons] at hnd
    rcases List.mem_cons.mp he with rfl | hmem
    · show entryUnique e (chromaUpsert (chromaUpsertOne st e) rest)
      refine chromaUpsert_preserves_unique rest _ e ?_ (chromaUpsertOne_unique st e)
      intro x hx hxid
      exact hnd.1 (hxid ▸ List.mem_map.mpr ⟨x, hx, rfl⟩)
    · show entryUnique e (chromaUpsert (chromaUpsertOne st e') rest)
      exact ih (chromaUpsertOne st e') hnd.2 e hmem

/-- Upserting an entry that is already the unique carrier of its id is
a no-op. -/
theorem chromaUpsertOne_of_present (st : List ChromaEntry) (e : ChromaEntry)
    (hmem : e.id ∈ st.map ChromaEntry.id) (huniq : entryUnique e st) :
    chromaUpsertOne st e = st := by
  unfold chromaUpsertOne
  obtain ⟨y, hy, hyid⟩ := List.mem_map.mp hmem
  rw [if_pos (List.any_eq_true.mpr ⟨y, hy, by simpa using hyid⟩)]
  have : ∀ x ∈ st, (if x.id == e.id then e else x) = x := by
    intro x hx
    by_cases hcase : x.id = e.id
    · rw [if_pos (by simpa using hcase)]
      exact (huniq x hx hcase).symm
    · rw [if_neg (by simpa using hcase)]
  rw [List.map_congr_left this]
  simp

/-- Batch-upserting entries that are all already uniquely present is a
no-op. -/
theorem chromaUpsert_of_present (es : List ChromaEntry) (st : List ChromaEntry)
    (h : ∀ e ∈ es, e.id ∈ st.map ChromaEntry.id ∧ entryUnique e st) :
    chromaUpsert st es = st := by
  induction es with
  | nil => rfl
  | cons e rest ih =>
    have hstep : chromaUpsert st (e :: rest) = chromaUpsert (chromaUpsertOne st e) rest := rfl
    have he := h e (List.mem_cons_self _ _)
    rw [hstep, chromaUpsertOne_of_present st e he.1 he.2]
    exact ih (fun x hx => h x (List.mem_cons_of_mem _ hx))

/-- Every id present after a full-sync run belongs to the Airtable id
set observed by the run. -/
theorem fullSync_ids_subset (env : SyncEnv) (st : List ChromaEntry) (x : String)
    (hx : x ∈ (fullSync env st).map ChromaEntry.id) : x ∈ env.airtableIds.dedup := by
  unfold fullSync at hx
  split at hx
  · exact syncAfterDelete_ids_subset env st x hx
  · rw [mem_id_chromaUpsert] at hx
    rcases hx with hx | hx
    · exact syncAfterDelete_ids_subset env st x hx
    · exact batch_ids_subset env env.airtableIds.dedup x hx

/-- C3: full sync is idempotent.  A second run over the state produced
by a first run, with the same SoR observations and the same
deterministic embedding, deletes nothing (all surviving ids are SoR
ids) and re-upserts exactly the entries already present, leaving the
collection unchanged. -/
theorem fullSync_idempotent (env : SyncEnv) (st : List ChromaEntry) :
    fullSync env (fullSync env st) = fullSync env st := by
  have hsub := fullSync_ids_subset env st
  have hdel : syncIdsToDelete env (fullSync env st) = [] := by
    unfold syncIdsToDelete
    rw [List.filter_eq_nil_iff]
    intro a ha
    have : a ∈ env.airtableIds.dedup := hsub a (List.mem_dedup.mp ha)
    simp [this]
  have h2 : syncAfterDelete env (fullSync env st) = fullSync env st := by
    unfold syncAfterDelete
    rw [hdel]
    rfl
  by_cases hb : (syncBatch env).isEmpty = true
  · conv_lhs => rw [fullSync]
    rw [if_pos hb, h2]
  · have hfs : fullSync env st = chromaUpsert (syncAfterDelete env st) (syncBatch env) := by
      rw [fullSync, if_neg hb]
    conv_lhs => rw [fullSync]
    rw [if_neg hb, h2, hfs]
    apply chromaUpsert_of_present
    intro e he
    constructor
    · exact (mem_id_chromaUpsert _ _ _).mpr (Or.inr (List.mem_map.mpr ⟨e, he, rfl⟩))
    · exact chromaUpsert_unique _ _ (batch_ids_nodup env _ (List.nodup_dedup _)) e he

set_option maxRecDepth 8192

/-- Strings whose data disagree within the length of the left literal
of an append are distinct, whatever the appended suffix is. -/
theorem append_left_ne (pre suf t : String)
    (h : t.data.take pre.data.length ≠ pre.data) : pre ++ suf ≠ t := by
  intro he
  apply h
  rw [← he, String.data_append]
  exact List.take_left _ _

/-- Appending a suffix preserves a startswith check. -/
theorem pyStartsWith_append (p pre suf : String)
    (h : pyStartsWith pre p = true) : pyStartsWith (pre ++ suf) p = true := by
  rw [pyStartsWith, List.isPrefixOf_iff_prefix] at h ⊢
  rw [String.data_append]
  exact h.trans (List.prefix_append _ _)

/-- C4: when transcription returns an error-sentinel string, the audio
path short-circuits: the response is the empty transcribed text and the
audio-processing error reply, the history store is returned untouched,
and the effect trace holds no vector query and no completion call. -/
theorem audio_transcription_error_short_circuits (env : ChatEnv) (store : Store) (sid : String)
    (herr : pyStartsWith (transcribeAudio env).1 "Error:" = true) :
    processAudioMessage env store sid
        = (("", "Audio Processing Error: " ++ (transcribeAudio env).1), store, (transcribeAudio env).2)
      ∧ (∀ q, Effect.vectorQuery q ∉ (processAudioMessage env store sid).2.2)
      ∧ (∀ ms, Effect.backendCompletion ms ∉ (processAudioMessage env store sid).2.2) := by
  have hmain : processAudioMessage env store sid
      = (("", "Audio Processing Error: " ++ (transcribeAudio env).1), store, (transcribeAudio env).2) := by
    simp only [processAudioMessage]
    rw [if_pos herr]
  refine ⟨hmain, ?_, ?_⟩
  · intro q hq
    rw [hmain] at hq
    revert hq
    unfold transcribeAudio
    split <;> simp
  · intro ms hms
    rw [hmain] at hms
    revert hms
    unfold transcribeAudio
    split <;> simp

/-- Witness for C4: the connectivity-failure transcription sentinel
short-circuits a concrete audio run. -/
theorem audio_transcription_error_short_circuits_witness :
    pyStartsWith (transcribeAudio failEnv).1 "Error:" = true
      ∧ processAudioMessage failEnv emptyStore "s1"
          = (("", "Audio Processing Error: " ++ (transcribeAudio failEnv).1),
             emptyStore, (transcribeAudio failEnv).2) :=
  ⟨by decide, (audio_transcription_error_short_circuits failEnv emptyStore "s1" (by decide)).1⟩

/-- Projection of the store produced by the text path: the history is
written exactly when the reply does not start with the error prefix. -/
theorem processChatMessage_store (env : ChatEnv) (store : Store) (sid msg : String) :
    (processChatMessage env store sid msg).2.1
      = (if pyStartsWith (processChatMessage env store sid msg).1.1 "Error:" = true then store
         else updateHistory store sid msg (processChatMessage env store sid msg).1.1) := rfl

/-- C5: on the text path and on the audio path alike, a reply that
starts with the error-sentinel prefix leaves the conversation history
store exactly as it was: no user turn and no assistant turn is
appended. -/
theorem error_reply_never_written_to_history (env : ChatEnv) (store : Store) (sid msg : String) :
    (pyStartsWith (processChatMessage env store sid msg).1.1 "Error:" = true →
      (processChatMessage env store sid msg).2.1 = store) ∧
    (pyStartsWith (processAudioMessage env store sid).1.2 "Error:" = true →
      (processAudioMessage env store sid).2.1 = store) := by
  constructor
  · intro h
    rw [processChatMessage_store, if_pos h]
  · intro h
    simp only [processAudioMessage] at h ⊢
    by_cases ht : pyStartsWith (transcribeAudio env).1 "Error:" = true
    · rw [if_pos ht]
    · rw [if_neg ht] at h ⊢
      rw [if_pos h]

/-- Witness for C5: a completion connectivity failure produces an
error-prefixed reply and the store of the run is unchanged. -/
theorem error_reply_never_written_to_history_witness :
    pyStartsWith (processChatMessage failEnv emptyStore "s1" "hello").1.1 "Error:" = true
      ∧ (processChatMessage failEnv emptyStore "s1" "hello").2.1 = emptyStore :=
  ⟨by decide, (error_reply_never_written_to_history failEnv emptyStore "s1" "hello").1 (by decide)⟩

/-- C6: on the audio path the completion backend is not called with the
specified context-enhanced user content.  The source passes the whole
retrieval tuple as the context argument of _call_openai_api, whose
f-string renders the str() of the tuple: for a successful transcription
of hi and an empty retrieval, the user turn sent embeds the quoted
tuple rendering, which differs from the content the spec prescribes for
the retrieval context string. -/
theorem audio_completion_context_is_tuple_repr :
    (processAudioMessage stubEnv emptyStore "s1").2.2
        = [Effect.backendTranscription, Effect.vectorQuery "hi",
           Effect.backendCompletion [systemMsg,
             ⟨"user", "Context:\n(\x27No specific context found in the knowledge base.\x27, [])\n\nUser Question: hi"⟩]]
      ∧ "Context:\n(\x27No specific context found in the knowledge base.\x27, [])\n\nUser Question: hi"
          ≠ contextEnhanced "No specific context found in the knowledge base." "hi" := by
  constructor
  · decide
  · decide

/-- C7: a retrieval run whose vector query returns zero ids produces
exactly the no-context sentinel pair, not an error. -/
theorem retrieval_zero_ids_returns_sentinel (env : ChatEnv) (message : String)
    (hok : env.ragOk = true) (hids : env.queryIds message = some []) :
    (retrieveRag env message).1 = ("No specific context found in the knowledge base.", []) := by
  simp [retrieveRag, hok, hids]

/-- Witness for C7 on a concrete environment whose query finds no ids. -/
theorem retrieval_zero_ids_returns_sentinel_witness :
    stubEnv.ragOk = true
      ∧ (retrieveRag stubEnv "q").1 = ("No specific context found in the knowledge base.", []) :=
  ⟨rfl, retrieval_zero_ids_returns_sentinel stubEnv "q" rfl rfl⟩

/-- C8: each expected backend failure category (connectivity, rate
limit, authentication, generic API status error, unexpected exception)
maps to its own error-prefixed sentinel string, pairwise distinct
within the completion call and within the transcription call, and the
calls return these strings instead of propagating the failure. -/
theorem backend_failures_map_to_distinct_sentinels :
    (∀ code : Nat,
      [completionReply .connErr, completionReply .rateLimit, completionReply .authErr,
       completionReply (.apiStatus code), completionReply .unexpected].Nodup
      ∧ ∀ r ∈ [completionReply .connErr, completionReply .rateLimit, completionReply .authErr,
               completionReply (.apiStatus code), completionReply .unexpected],
          pyStartsWith r "Error:" = true) ∧
    (∀ code : Nat,
      [transcriptionReply .connErr, transcriptionReply .rateLimit, transcriptionReply .authErr,
       transcriptionReply (.apiStatus code), transcriptionReply .unexpected].Nodup
      ∧ ∀ r ∈ [transcriptionReply .connErr, transcriptionReply .rateLimit, transcriptionReply .authErr,
               transcriptionReply (.apiStatus code), transcriptionReply .unexpected],
          pyStartsWith r "Error:" = true) ∧
    (∀ (env : ChatEnv) (msg : String) (history : List Msg) (context : String),
      env.openaiClientOk = true →
        (callOpenAI env msg history context).1
            = completionReply (env.completionOutcome (buildMessages history context msg))
          ∧ (transcribeAudio env).1 = transcriptionReply env.transcribeOutcome) := by
  refine ⟨?_, ?_, ?_⟩
  · intro code
    constructor
    · refine List.nodup_cons.mpr ⟨?_, List.nodup_cons.mpr ⟨?_, List.nodup_cons.mpr ⟨?_,
        List.nodup_cons.mpr ⟨?_, List.nodup_singleton _⟩⟩⟩⟩
      · simp only [List.mem_cons, List.mem_singleton, List.not_mem_nil, or_false]
        push_neg
        exact ⟨by decide, by decide, (append_left_ne _ _ _ (by decide)).symm, by decide⟩
      · simp only [List.mem_cons, List.mem_singleton, List.not_mem_nil, or_false]
        push_neg
        exact ⟨by decide, (append_left_ne _ _ _ (by decide)).symm, by decide⟩
      · simp only [List.mem_cons, List.mem_singleton, List.not_mem_nil, or_false]
        push_neg
        exact ⟨(append_left_ne _ _ _ (by decide)).symm, by decide⟩
      · simp only [List.mem_singleton]
        exact append_left_ne _ _ _ (by decide)
    · intro r hr
      simp only [List.mem_cons, List.mem_singleton, List.not_mem_nil, or_false] at hr
      rcases hr with rfl | rfl | rfl | rfl | rfl
      · decide
      · decide
      · decide
      · exact pyStartsWith_append _ _ _ (by decide)
      · decide
  · intro code
    constructor
    · refine List.nodup_cons.mpr ⟨?_, List.nodup_cons.mpr ⟨?_, List.nodup_cons.mpr ⟨?_,
        List.nodup_cons.mpr ⟨?_, List.nodup_singleton _⟩⟩⟩⟩
      · simp only [List.mem_cons, List.mem_singleton, List.not_mem_nil, or_false]
        push_neg
        exact ⟨by decide, by decide, (append_left_ne _ _ _ (by decide)).symm, by decide⟩
      · simp only [List.mem_cons, List.mem_singleton, List.not_mem_nil, or_false]
        push_neg
        exact ⟨by decide, (append_left_ne _ _ _ (by decide)).symm, by decide⟩
      · simp only [List.mem_cons, List.mem_singleton, List.not_mem_nil, or_false]
        push_neg
        exact ⟨(append_left_ne _ _ _ (by decide)).symm, by decide⟩
      · simp only [List.mem_singleton]
        exact append_left_ne _ _ _ (by decide)
    · intro r hr
      simp only [List.mem_cons, List.mem_singleton, List.not_mem_nil, or_false] at hr
      rcases hr with rfl | rfl | rfl | rfl | rfl
      · decide
      · decide
      · decide
      · exact pyStartsWith_append _ _ _ (by decide)
      · decide
  · intro env msg history context hok
    constructor
    · simp only [callOpenAI]
      rw [if_neg (by simp [hok])]
    · simp only [transcribeAudio]
      rw [if_neg (by simp [hok])]

/-- Witness for C8: the sentinel equations hold of a concrete healthy
environment and the distinctness holds at a concrete status code. -/
theorem backend_failures_map_to_distinct_sentinels_witness :
    stubEnv.openaiClientOk = true
      ∧ (callOpenAI stubEnv "m" [] "ctx").1
          = completionReply (stubEnv.completionOutcome (buildMessages [] "ctx" "m"))
      ∧ (transcribeAudio stubEnv).1 = transcriptionReply stubEnv.transcribeOutcome
      ∧ [completionReply .connErr, completionReply .rateLimit, completionReply .authErr,
         completionReply (.apiStatus 503), completionReply .unexpected].Nodup :=
  ⟨rfl,
   (backend_failures_map_to_distinct_sentinels.2.2 stubEnv "m" [] "ctx" rfl).1,
   (backend_failures_map_to_distinct_sentinels.2.2 stubEnv "m" [] "ctx" rfl).2,
   (backend_failures_map_to_distinct_sentinels.1 503).1⟩

/-- Appending one user/assistant pair preserves the alternation shape
of a stored history. -/
theorem wfHistory_append_pair (u a : String) :
    ∀ (l : List Msg), wfHistory l = true →
      wfHistory (l ++ [⟨"user", u⟩, ⟨"assistant", a⟩]) = true
  | [], _ => by simp [wfHistory]
  | u' :: a' :: rest, h => by
    simp only [wfHistory, Bool.and_eq_true] at h
    simp only [List.cons_append, wfHistory, Bool.and_eq_true]
    exact ⟨h.1, wfHistory_append_pair u a rest h.2⟩
  | [x], h => by simp [wfHistory] at h

/-- Sessions other than the addressed one are untouched by a text-path
message. -/
theorem processChatMessage_other_session (env : ChatEnv) (store : Store) (sid msg s : String)
    (hs : s ≠ sid) : (processChatMessage env store sid msg).2.1 s = store s := by
  rw [processChatMessage_store]
  split
  · rfl
  · simp only [updateHistory]
    rw [if_neg hs]

/-- C9: the history store keeps every session an alternating
user/assistant turn sequence in arrival order, a history write touches
no other session, and the concrete hello-then-world run on session s1
yields exactly the four turns user hello, assistant R1, user world,
assistant R2 while every other session stays empty. -/
theorem history_alternates_and_sessions_isolated :
    (∀ (store : Store) (sid u a : String),
        (∀ s, wfHistory (store s) = true) →
        ∀ s, wfHistory (updateHistory store sid u a s) = true) ∧
    (∀ (store : Store) (sid u a s : String), s ≠ sid → updateHistory store sid u a s = store s) ∧
    historyDemoStore "s1"
        = [⟨"user", "hello"⟩, ⟨"assistant", "R1"⟩, ⟨"user", "world"⟩, ⟨"assistant", "R2"⟩] ∧
    (∀ s, s ≠ "s1" → historyDemoStore s = []) := by
  refine ⟨?_, ?_, by decide, ?_⟩
  · intro store sid u a hwf s
    simp only [updateHistory]
    by_cases hcase : s = sid
    · rw [if_pos hcase]
      exact wfHistory_append_pair u a (store sid) (hwf sid)
    · rw [if_neg hcase]
      exact hwf s
  · intro store sid u a s hs
    simp only [updateHistory]
    rw [if_neg hs]
  · intro s hs
    rw [historyDemoStore, processChatMessage_other_session _ _ _ _ _ hs,
      processChatMessage_other_session _ _ _ _ _ hs]
    rfl

/-- Witness for C9: the alternation and isolation parts applied to the
empty store and concrete sessions. -/
theorem history_alternates_and_sessions_isolated_witness :
    wfHistory (updateHistory emptyStore "s1" "hello" "R1" "s1") = true
      ∧ ("s2" ≠ "s1")
      ∧ updateHistory emptyStore "s1" "u" "a" "s2" = emptyStore "s2" :=
  ⟨history_alternates_and_sessions_isolated.1 emptyStore "s1" "hello" "R1"
      (fun _ => by simp [emptyStore, wfHistory]) "s1",
   by decide,
   history_alternates_and_sessions_isolated.2.1 emptyStore "s1" "u" "a" "s2" (by decide)⟩

/-- C10: a record that carries an id but whose Type field is missing or
an empty list is mapped to None — dropped from suggestions — whatever
the other fields hold, because the subscript get(Type, [])[0] raises
IndexError inside the try block. -/
theorem missing_type_record_dropped (rec : Fields)
    (hid : (dictGet rec "id").isSome = true)
    (hty : dictGet rec "Type" = none ∨ dictGet rec "Type" = some (.l [])) :
    map_airtable_to_card_data rec = none := by
  have hne : rec.isEmpty = false := by
    cases rec with
    | nil => simp [dictGet] at hid
    | cons p l => rfl
  have htyv : (dictGet rec "Type").getD (.l []) = .l [] := by
    rcases hty with h | h <;> rw [h] <;> rfl
  rw [map_airtable_to_card_data,
    if_neg (by simp [hne, Option.isNone_iff_eq_none]; intro hn; rw [hn] at hid; simp at hid),
    htyv]
  repeat' split <;> try rfl

/-- Witness for C10: a concrete record with every card-relevant field
except Type present is dropped by the mapper. -/
theorem missing_type_record_dropped_witness :
    (dictGet typelessRecord "id").isSome = true
      ∧ map_airtable_to_card_data typelessRecord = none :=
  ⟨by decide, missing_type_record_dropped typelessRecord (by decide) (Or.inl (by decide))⟩

end Concierge
